import Mathlib

/-!
Shallow embedding of `src/main.py` (M365-Scout news aggregator) in Lean 4,
together with theorems settling the specification claims.

Python strings are modelled as lists of characters (`Str`); Python's
substring test `needle in haystack` is modelled by `strIn`; `str.lower()`
by character-wise `Char.toLower` (all configured keywords are ASCII).
External collaborators (feed fetching, the HTML stripper, the HTTP client)
are modelled as explicit parameters of the run, and the run is instrumented
to return the trace of external calls it makes (`Event`), so that claims
about calls never being made are statable.
-/

set_option maxRecDepth 40000

namespace M365Scout

/-- Strings of the model: lists of characters. -/
abbrev Str := List Char

/-- Python `haystack.startswith(needle)`-style prefix test, used to build
the substring test below. -/
def prefixB : Str → Str → Bool
  | [], _ => true
  | _ :: _, [] => false
  | a :: as, b :: bs => a == b && prefixB as bs

/-- Python's substring containment `needle in haystack` for strings. -/
def strIn (needle : Str) : Str → Bool
  | [] => prefixB needle []
  | c :: t => prefixB needle (c :: t) || strIn needle t

/-- Python `str.lower()` (character-wise; the configured keywords are ASCII). -/
def lowerStr (s : Str) : Str := s.map Char.toLower

/-- The `KEYWORDS` constant of `src/main.py` (lines 54-59). -/
def KEYWORDS : List Str :=
  [ ("power platform").data, ("copilot").data, ("power apps").data,
    ("power automate").data, ("power bi").data, ("dynamics 365").data,
    ("m365").data, ("microsoft 365").data, ("ai").data, ("agent").data,
    ("automation").data, ("low-code").data, ("no-code").data,
    ("sharepoint").data, ("teams").data, ("azure").data, ("microsoft").data ]

/-- `NewsAggregator.is_relevant` (main.py lines 80-82):
`text = f"{title} {summary}".lower()`; true iff some keyword occurs in `text`. -/
def is_relevant (title summary : Str) : Bool :=
  let text : Str := lowerStr (title ++ [' '] ++ summary)
  KEYWORDS.any (fun keyword => strIn keyword text)

/-- The literal ellipsis marker `"..."` used by `summarize_article`. -/
def ellipsis : Str := ("...").data

/-- `NewsAggregator.summarize_article` (main.py lines 84-88).  The
BeautifulSoup text extraction is an external collaborator, passed in as
`stripHtml`; the rest is the literal truncation of the source:
`text[:300] + "..." if len(text) > 300 else text`. -/
def summarize_article (stripHtml : Str → Str) (title content : Str) : Str × Str :=
  let text : Str := stripHtml content
  let summary : Str := if text.length > 300 then text.take 300 ++ ellipsis else text
  (title, summary)

/-- The `Config` dataclass (main.py lines 25-31): four environment-sourced
fields.  `PLANKA_URL`, `BOARD_ID` and `TODO_LIST_ID` default to the empty
string when unset; `PLANKA_TOKEN` is `Optional[str]` (absent = `none`). -/
structure Config where
  PLANKA_URL : Str
  PLANKA_TOKEN : Option Str
  BOARD_ID : Str
  TODO_LIST_ID : Str
deriving DecidableEq, Repr

/-- Python truthiness of an `Optional[str]`: falsy when `None` or `""`. -/
def optStrTruthy : Option Str → Bool
  | none => false
  | some s => !s.isEmpty

/-- `Config.__post_init__` (main.py lines 33-42): eager validation, raising
(`Except.error`) on the first missing required setting, in source order. -/
def Config.postInit (c : Config) : Except String Config :=
  if !optStrTruthy c.PLANKA_TOKEN then
    .error "PLANKA_TOKEN environment variable is required"
  else if c.PLANKA_URL.isEmpty then
    .error "PLANKA_URL environment variable is required"
  else if c.BOARD_ID.isEmpty then
    .error "PLANKA_BOARD_ID environment variable is required"
  else if c.TODO_LIST_ID.isEmpty then
    .error "PLANKA_TODO_LIST_ID environment variable is required"
  else .ok c

/-- The aggregator object after `NewsAggregator.__init__` (main.py lines
63-69): validated config plus the prepared request headers.  No network
call occurs during construction. -/
structure Aggregator where
  config : Config
  headers : List (Str × Str)
deriving DecidableEq, Repr

/-- `NewsAggregator.__init__` (main.py lines 63-69): validates the config
(`Config()` runs `__post_init__`) and builds the bearer headers; any
validation error propagates and no aggregator is produced. -/
def mkAggregator (c : Config) : Except String Aggregator :=
  match c.postInit with
  | .error e => .error e
  | .ok cfg =>
      .ok ⟨cfg, [ (("Authorization").data, ("Bearer ").data ++ cfg.PLANKA_TOKEN.getD []),
                  (("Content-Type").data, ("application/json").data) ]⟩

/-- The `FEEDS` constant (main.py lines 45-52), in source (insertion) order. -/
def FEEDS : List (Str × Str) :=
  [ (("Microsoft Tech Community").data, ("https://techcommunity.microsoft.com/rss-feeds").data),
    (("Power Platform Blog").data, ("https://powerplatform.microsoft.com/en-us/blog/feed/").data),
    (("Microsoft 365 Blog").data, ("https://www.microsoft.com/en-us/microsoft-365/blog/feed/").data),
    (("Azure Blog").data, ("https://azure.microsoft.com/en-us/blog/feed/").data),
    (("Microsoft Learn").data, ("https://docs.microsoft.com/api/search/rss?search=Power%20Platform&locale=en-us").data),
    (("Dynamics 365 Blog").data, ("https://cloudblogs.microsoft.com/dynamics365/feed/").data) ]

/-- A card object of the remote board's JSON, as used by
`check_existing_cards`: only its (optional) `description` field is read. -/
structure RemoteCard where
  description : Option Str
deriving DecidableEq, Repr

/-- `NewsAggregator.check_existing_cards` (main.py lines 118-131).  `resp`
models the outcome of the board GET: `none` for a transport error /
exception, `some (status, cards)` for a response with its parsed
`included.cards` list (missing keys default to the empty list).  A non-200
status or an exception falls through to `return False`. -/
def check_existing_cards (resp : Option (Nat × List RemoteCard)) (url : Str) : Bool :=
  match resp with
  | none => false
  | some (status, cards) =>
      if status == 200 then
        cards.any (fun card => strIn url (card.description.getD []))
      else false

/-- The created-card JSON body returned by the board service, kept opaque
(the source returns `response.json()` unchanged). -/
structure PlankaCard where
  raw : Str
deriving DecidableEq, Repr

/-- The JSON payload of the card-creation POST (main.py lines 94-99). -/
structure CardData where
  name : Str
  description : Str
  listId : Str
  position : Nat
deriving DecidableEq, Repr

/-- `card_name` of `create_planka_card` (main.py line 91):
`f"[{source}] {title[:80]}"`. -/
def card_name (source title : Str) : Str :=
  ("[").data ++ source ++ ("] ").data ++ title.take 80

/-- `card_desc` of `create_planka_card` (main.py line 92), with the
generated timestamp passed in as `now`. -/
def card_desc (description url now : Str) : Str :=
  description ++ ("\n\n🔗 Source: ").data ++ url ++ ("\n📅 Found: ").data ++ now

/-- The full POST payload built by `create_planka_card` (main.py lines 91-99). -/
def cardPayload (cfg : Config) (now : Str) (title description url source : Str) : CardData :=
  ⟨card_name source title, card_desc description url now, cfg.TODO_LIST_ID, 1⟩

/-- `NewsAggregator.create_planka_card` (main.py lines 90-116).  `post`
models the HTTP client: `none` for a transport error / exception,
`some (status, body)` for a response.  The card body is returned only on
status exactly 200; otherwise the failure is logged and `none` returned. -/
def create_planka_card (cfg : Config) (post : CardData → Option (Nat × PlankaCard))
    (now : Str) (title description url source : Str) : Option PlankaCard :=
  match post (cardPayload cfg now title description url source) with
  | none => none
  | some (status, body) => if status == 200 then some body else none

/-- A feed entry as consumed by `run`: a dictionary whose four read keys
may each be absent (`entry.get` with defaults, main.py lines 143-145). -/
structure FeedEntry where
  title : Option Str
  link : Option Str
  summary : Option Str
  description : Option Str
deriving DecidableEq, Repr

/-- `entry.get("title", "")` (main.py line 143). -/
def entryTitle (e : FeedEntry) : Str := e.title.getD []

/-- `entry.get("link", "")` (main.py line 144). -/
def entryLink (e : FeedEntry) : Str := e.link.getD []

/-- `entry.get("summary", entry.get("description", ""))` (main.py line 145). -/
def entrySummary (e : FeedEntry) : Str := e.summary.getD (e.description.getD [])

/-- The external world of one run: feed fetching (exceptions already
degraded to `[]` by `fetch_feed`), the board GET response for an
existence check on a given link, the HTTP client for card-creation POSTs,
the HTML stripper, and the generated timestamp. -/
structure Env where
  fetch : Str → Str → List FeedEntry
  boardResp : Str → Option (Nat × List RemoteCard)
  post : CardData → Option (Nat × PlankaCard)
  stripHtml : Str → Str
  now : Str

/-- One observable external call made by the run: an existence check
(board GET) with its result, or a card-creation POST with its arguments
and result. -/
inductive Event where
  | check (link : Str) (result : Bool)
  | publish (title summary link source : Str) (result : Option PlankaCard)
deriving DecidableEq, Repr

/-- The mutable state of one run: the in-run seen-set `processed_urls`
(as a list with set semantics; links are only ever added when absent)
and the `new_articles` counter. -/
structure RunState where
  processed : List Str
  count : Nat
deriving DecidableEq, Repr

/-- The body of the per-entry loop of `NewsAggregator.run` (main.py lines
142-163), instrumented with the trace of external calls it makes. -/
def processEntry (env : Env) (cfg : Config) (sourceName : Str)
    (s : RunState) (e : FeedEntry) : RunState × List Event :=
  let title := entryTitle e
  let link := entryLink e
  let summary := entrySummary e
  if link ∈ s.processed then (s, [])
  else
    let found := check_existing_cards (env.boardResp link) link
    if found then (⟨link :: s.processed, s.count⟩, [.check link true])
    else
      if is_relevant title summary then
        let article := summarize_article env.stripHtml title summary
        let result := create_planka_card cfg env.post env.now article.1 article.2 link sourceName
        match result with
        | some body =>
            (⟨link :: s.processed, s.count + 1⟩,
             [.check link false, .publish article.1 article.2 link sourceName (some body)])
        | none => (s, [.check link false, .publish article.1 article.2 link sourceName none])
      else (s, [.check link false])

/-- The per-entry loop over a list of entries, threading the state and
concatenating the call traces. -/
def processEntries (env : Env) (cfg : Config) (sourceName : Str)
    (s : RunState) : List FeedEntry → RunState × List Event
  | [] => (s, [])
  | e :: es =>
      let step := processEntry env cfg sourceName s e
      let rest := processEntries env cfg sourceName step.1 es
      (rest.1, step.2 ++ rest.2)

/-- One iteration of the source loop of `run` (main.py lines 139-142):
fetch the feed and process only its first 5 entries (`entries[:5]`). -/
def processSource (env : Env) (cfg : Config) (s : RunState) (src : Str × Str) :
    RunState × List Event :=
  processEntries env cfg src.1 s ((env.fetch src.1 src.2).take 5)

/-- The source loop of `run` over a feed list, in order. -/
def runFeeds (env : Env) (cfg : Config) (s : RunState) :
    List (Str × Str) → RunState × List Event
  | [] => (s, [])
  | f :: fs =>
      let step := processSource env cfg s f
      let rest := runFeeds env cfg step.1 fs
      (rest.1, step.2 ++ rest.2)

/-- `NewsAggregator.run` (main.py lines 133-167) with its call trace:
starts from an empty seen-set and a zero counter and iterates `FEEDS`. -/
def runTrace (env : Env) (cfg : Config) : RunState × List Event :=
  runFeeds env cfg ⟨[], 0⟩ FEEDS

/-- `NewsAggregator.run`'s return value: the `new_articles` count. -/
def run (env : Env) (cfg : Config) : Nat := (runTrace env cfg).1.count

/-- The links of the successful card-creation POSTs of a trace, in order. -/
def successLinks (evs : List Event) : List Str :=
  evs.filterMap fun ev =>
    match ev with
    | .publish _ _ link _ (some _) => some link
    | _ => none

/-- `main()` (main.py lines 170-171): construct the aggregator (validating
the config, which can fail before any network activity) and only then run. -/
def mainRun (env : Env) (c : Config) : Except String Nat :=
  match mkAggregator c with
  | .error e => .error e
  | .ok a => .ok (run env a.config)

/-! Concrete fixtures used by witness theorems. -/

/-- A fully populated configuration. -/
def cfgOK : Config := ⟨("http://planka").data, some ("tok").data, ("b1").data, ("l1").data⟩

/-- A configuration whose bearer token is absent. -/
def cfgNoToken : Config := ⟨("http://planka").data, none, ("b1").data, ("l1").data⟩

/-- An inert environment: empty feeds, failing board GET, failing POST. -/
def envEmpty : Env := ⟨fun _ _ => [], fun _ => none, fun _ => none, id, []⟩

/-- A sample created-card body. -/
def cardBody : PlankaCard := ⟨("card").data⟩

/-- A feed entry titled with a keyword, carrying link `"L"`. -/
def entryL : FeedEntry := ⟨some ("copilot news").data, some ("L").data, some ("x").data, none⟩

/-- An environment where two distinct configured sources both return
`entryL` among their (only) entries, the board GET fails (so the
existence check reports absent) and every POST succeeds with status 200. -/
def envTwoSources : Env :=
  ⟨fun n _ =>
      if n = ("Microsoft Tech Community").data ∨ n = ("Power Platform Blog").data
      then [entryL] else [],
   fun _ => none, fun _ => some (200, cardBody), id, []⟩

/-- An environment whose board GET always answers 200 with one card whose
description contains the link `"L"`. -/
def envBoardL : Env :=
  ⟨fun _ _ => [], fun _ => some (200, [⟨some ("L").data⟩]), fun _ => none, id, []⟩

/-- An environment whose board GET always answers 200 with one card. -/
def envBoardOneCard : Env :=
  ⟨fun _ _ => [], fun _ => some (200, [⟨some ("d").data⟩]), fun _ => none, id, []⟩

/-- A feed entry with a title and a summary but no link field. -/
def entryNoLink : FeedEntry := ⟨some ("t").data, none, some ("s").data, none⟩

/-- Five feed entries with no populated fields. -/
def fiveEntries : List FeedEntry := List.replicate 5 ⟨none, none, none, none⟩

/-- `fiveEntries` followed by a sixth, distinguishable entry. -/
def sixEntries : List FeedEntry := fiveEntries ++ [⟨none, some ("x6").data, none, none⟩]

/-- The composable run invariant: one step of the run from state `s` to
result `r` grows the seen-set monotonically, publishes pairwise distinct
links, publishes only links that were unseen before the step and are seen
after it, and increments the counter by exactly the number of successful
publishes. -/
def StepOK (s : RunState) (r : RunState × List Event) : Prop :=
  s.processed ⊆ r.1.processed ∧
  (successLinks r.2).Nodup ∧
  (∀ l ∈ successLinks r.2, l ∉ s.processed ∧ l ∈ r.1.processed) ∧
  r.1.count = s.count + (successLinks r.2).length

/-! Theorems. -/

/-- `prefixB n h` decides whether `n` is a prefix of `h`. -/
theorem prefixB_iff (n : Str) : ∀ h : Str, prefixB n h = true ↔ ∃ v, h = n ++ v := by
  induction n with
  | nil => intro h; simp [prefixB]
  | cons a as ih =>
    intro h
    cases h with
    | nil => simp [prefixB]
    | cons b bs =>
      simp only [prefixB, Bool.and_eq_true, beq_iff_eq, ih, List.cons_append, List.cons.injEq]
      constructor
      · rintro ⟨rfl, v, rfl⟩; exact ⟨v, rfl, rfl⟩
      · rintro ⟨v, rfl, rfl⟩; exact ⟨rfl, v, rfl⟩

/-- `strIn n h` decides whether `n` occurs in `h` as a contiguous substring. -/
theorem strIn_iff (n : Str) : ∀ h : Str, strIn n h = true ↔ ∃ u v, h = u ++ n ++ v := by
  intro h
  induction h with
  | nil =>
    simp only [strIn, prefixB_iff]
    constructor
    · rintro ⟨v, hv⟩
      rcases List.append_eq_nil.mp hv.symm with ⟨rfl, rfl⟩
      exact ⟨[], [], rfl⟩
    · rintro ⟨u, v, huv⟩
      rcases List.append_eq_nil.mp huv.symm with ⟨h1, rfl⟩
      rcases List.append_eq_nil.mp h1 with ⟨rfl, rfl⟩
      exact ⟨[], rfl⟩
  | cons c t iht =>
    simp only [strIn, Bool.or_eq_true, prefixB_iff, iht]
    constructor
    · rintro (⟨v, hv⟩ | ⟨u, v, huv⟩)
      · exact ⟨[], v, by simpa using hv⟩
      · exact ⟨c :: u, v, by simp [huv]⟩
    · rintro ⟨u, v, huv⟩
      cases u with
      | nil => exact Or.inl ⟨v, by simpa using huv⟩
      | cons x u =>
        rcases List.cons.injEq .. ▸ huv with ⟨rfl, ht⟩
        exact Or.inr ⟨u, v, by simpa using ht⟩

/-- The empty string occurs in every string. -/
theorem strIn_nil_left : ∀ h : Str, strIn [] h = true := by
  intro h
  cases h with
  | nil => rfl
  | cons c t => simp [strIn, prefixB]

/-- C3: for all (title, summary) pairs, `is_relevant` returns true iff the
lower-cased space-joined concatenation of title and summary (the text
`f"{title} {summary}".lower()` built by the source) contains at least one
configured keyword as a contiguous substring; moreover
`is_relevant "New Copilot features" ""` is true and
`is_relevant "Weather report" "sunny skies"` is false. -/
theorem relevance_keyword_substring_iff :
    (∀ title summary : Str,
        is_relevant title summary = true ↔
          ∃ k ∈ KEYWORDS, ∃ u v, lowerStr (title ++ [' '] ++ summary) = u ++ k ++ v) ∧
    is_relevant ("New Copilot features").data ("").data = true ∧
    is_relevant ("Weather report").data ("sunny skies").data = false := by
  refine ⟨?_, by decide, by decide⟩
  intro title summary
  simp only [is_relevant, List.any_eq_true, strIn_iff]

/-- Witness for C3: the iff instantiated at the first concrete example. -/
theorem relevance_keyword_substring_iff_witness :
    is_relevant ("New Copilot features").data ("").data = true :=
  relevance_keyword_substring_iff.2.1

/-- C4: writing `t` for the HTML-stripped plain text of the input, if
`t` has length at most 300 then `summarize_article` returns `t` unchanged
as the summary; if `t` is longer than 300, the summary is exactly the
first 300 characters of `t` with the literal ellipsis marker `"..."`
appended, of total length 303 = 300 + the marker's length. -/
theorem summarize_truncation (stripHtml : Str → Str) (title content : Str) :
    ((stripHtml content).length ≤ 300 →
        (summarize_article stripHtml title content).2 = stripHtml content) ∧
    (300 < (stripHtml content).length →
        (summarize_article stripHtml title content).2
            = (stripHtml content).take 300 ++ ellipsis ∧
        (summarize_article stripHtml title content).2.length = 303 ∧
        303 = 300 + ellipsis.length) := by
  constructor
  · intro h
    simp [summarize_article, Nat.not_lt.mpr h]
  · intro h
    have hlen : ((stripHtml content).take 300).length = 300 := by
      simp [List.length_take, Nat.min_eq_left (Nat.le_of_lt h)]
    refine ⟨by simp [summarize_article, h], ?_, by decide⟩
    simp [summarize_article, h, hlen]
    decide

/-- Witness for C4: a 301-character text is cut to 300 characters plus
the three-character marker, total length 303. -/
theorem summarize_truncation_witness :
    300 < (id (List.replicate 301 'a' : Str)).length ∧
    (summarize_article id [] (List.replicate 301 'a')).2.length = 303 :=
  ⟨by simp, ((summarize_truncation id [] (List.replicate 301 'a')).2 (by simp)).2.1⟩

/-- C6: each missing required configuration value makes construction of the
aggregator fail with an error naming the missing setting; in particular an
absent (or empty) bearer token makes the whole entry point return that
error, so the run — and with it any fetching or other HTTP activity —
never happens (construction itself performs no HTTP call: `mkAggregator`
does not even receive an environment). -/
theorem config_validation_fails_fast (c : Config) :
    ((c.PLANKA_TOKEN = none ∨ c.PLANKA_TOKEN = some []) →
        ∀ env : Env, mainRun env c = .error "PLANKA_TOKEN environment variable is required") ∧
    (optStrTruthy c.PLANKA_TOKEN = true → c.PLANKA_URL = [] →
        mkAggregator c = .error "PLANKA_URL environment variable is required") ∧
    (optStrTruthy c.PLANKA_TOKEN = true → c.PLANKA_URL ≠ [] → c.BOARD_ID = [] →
        mkAggregator c = .error "PLANKA_BOARD_ID environment variable is required") ∧
    (optStrTruthy c.PLANKA_TOKEN = true → c.PLANKA_URL ≠ [] → c.BOARD_ID ≠ [] →
        c.TODO_LIST_ID = [] →
        mkAggregator c = .error "PLANKA_TODO_LIST_ID environment variable is required") := by
  refine ⟨?_, ?_, ?_, ?_⟩
  · rintro (h | h) env <;>
      simp [mainRun, mkAggregator, Config.postInit, optStrTruthy, h]
  · intro ht hu
    simp [mkAggregator, Config.postInit, ht, hu]
  · intro ht hu hb
    simp [mkAggregator, Config.postInit, ht, hu, hb]
  · intro ht hu hb hl
    simp [mkAggregator, Config.postInit, ht, hu, hb, hl]

/-- Witness for C6: with the token absent, the entry point returns the
token error (so no run occurs). -/
theorem config_validation_fails_fast_witness :
    mainRun envEmpty cfgNoToken = .error "PLANKA_TOKEN environment variable is required" :=
  (config_validation_fails_fast cfgNoToken).1 (Or.inl rfl) envEmpty

/-- C7 counterexample: the claim calls any HTTP 200-class response a
success, but the source accepts only status exactly 200; a 201 response
(which is 200-class) with a card body yields the failure value `none`. -/
theorem publish_200_class_counterexample :
    (200 ≤ 201 ∧ 201 < 300) ∧
    create_planka_card cfgOK (fun _ => some (201, cardBody)) [] [] [] [] [] = none :=
  ⟨⟨by decide, by decide⟩, rfl⟩

/-- C7 amended: `create_planka_card` returns the created card body iff the
POST's response has status exactly 200; a transport error or any other
status yields the failure value `none` — the function is total (never
raises) and makes exactly one POST attempt (no retry). -/
theorem publish_success_iff_status_200 (cfg : Config)
    (post : CardData → Option (Nat × PlankaCard)) (now title description url source : Str) :
    (∀ body, create_planka_card cfg post now title description url source = some body ↔
        post (cardPayload cfg now title description url source) = some (200, body)) ∧
    (post (cardPayload cfg now title description url source) = none →
        create_planka_card cfg post now title description url source = none) ∧
    (∀ st body, st ≠ 200 →
        post (cardPayload cfg now title description url source) = some (st, body) →
        create_planka_card cfg post now title description url source = none) := by
  refine ⟨?_, ?_, ?_⟩
  · intro b
    cases hp : post (cardPayload cfg now title description url source) with
    | none => simp [create_planka_card, hp]
    | some r =>
      obtain ⟨st, body⟩ := r
      by_cases h200 : st = 200
      · subst h200; simp [create_planka_card, hp]
      · simp [create_planka_card, hp, h200, Ne.symm h200]
  · intro hp; simp [create_planka_card, hp]
  · intro st body hst hp; simp [create_planka_card, hp, hst]

/-- Witness for C7: a 200 response with a body is returned as the created
card. -/
theorem publish_success_iff_status_200_witness :
    create_planka_card cfgOK (fun _ => some (200, cardBody)) [] [] [] [] [] = some cardBody :=
  ((publish_success_iff_status_200 cfgOK (fun _ => some (200, cardBody)) [] [] [] [] []).1
    cardBody).mpr rfl

/-- C8: `check_existing_cards` returns true iff the board GET succeeded
with status 200 and some returned card's description contains the link as
a contiguous substring; a transport error or a non-200 status yields
false — the function is total (never raises). -/
theorem existing_check_iff_description_contains (resp : Option (Nat × List RemoteCard))
    (url : Str) :
    (check_existing_cards resp url = true ↔
        ∃ cards, resp = some (200, cards) ∧
          ∃ card ∈ cards, ∃ u v, card.description.getD [] = u ++ url ++ v) ∧
    check_existing_cards none url = false ∧
    (∀ (st : Nat) (cards : List RemoteCard), st ≠ 200 →
        check_existing_cards (some (st, cards)) url = false) := by
  refine ⟨?_, rfl, ?_⟩
  · cases resp with
    | none => simp [check_existing_cards]
    | some r =>
      obtain ⟨st, cards⟩ := r
      by_cases h200 : st = 200
      · subst h200
        simp [check_existing_cards, List.any_eq_true, strIn_iff]
      · simp [check_existing_cards, h200, Ne.symm h200]
  · intro st cards hst
    simp [check_existing_cards, hst]

/-- Witness for C8: a 200 board response whose single card's description
contains the link makes the check return true. -/
theorem existing_check_iff_description_contains_witness :
    check_existing_cards (some (200, [⟨some ("see L here").data⟩])) ("L").data = true :=
  (existing_check_iff_description_contains
      (some (200, [⟨some ("see L here").data⟩])) ("L").data).1.mpr
    ⟨[⟨some ("see L here").data⟩], rfl, ⟨some ("see L here").data⟩, List.mem_singleton.mpr rfl,
      ("see ").data, (" here").data, by decide⟩

/-- An entry whose link is already in the seen-set is skipped: state
unchanged, no external call. -/
theorem processEntry_seen (env : Env) (cfg : Config) (sn : Str) (s : RunState) (e : FeedEntry)
    (h : entryLink e ∈ s.processed) :
    processEntry env cfg sn s e = (s, []) := by
  simp [processEntry, h]

/-- An unseen entry the board already contains is recorded and skipped. -/
theorem processEntry_remote_found (env : Env) (cfg : Config) (sn : Str) (s : RunState)
    (e : FeedEntry) (h1 : entryLink e ∉ s.processed)
    (h2 : check_existing_cards (env.boardResp (entryLink e)) (entryLink e) = true) :
    processEntry env cfg sn s e =
      (⟨entryLink e :: s.processed, s.count⟩, [.check (entryLink e) true]) := by
  simp [processEntry, h1, h2]

/-- An unseen, remotely absent, irrelevant entry leaves the state unchanged. -/
theorem processEntry_irrelevant (env : Env) (cfg : Config) (sn : Str) (s : RunState)
    (e : FeedEntry) (h1 : entryLink e ∉ s.processed)
    (h2 : check_existing_cards (env.boardResp (entryLink e)) (entryLink e) = false)
    (h3 : is_relevant (entryTitle e) (entrySummary e) = false) :
    processEntry env cfg sn s e = (s, [.check (entryLink e) false]) := by
  simp [processEntry, h1, h2, h3]

/-- An unseen, remotely absent, relevant entry whose publish succeeds is
counted and recorded, and the publish call carries the summarized article. -/
theorem processEntry_publish_ok (env : Env) (cfg : Config) (sn : Str) (s : RunState)
    (e : FeedEntry) (body : PlankaCard) (h1 : entryLink e ∉ s.processed)
    (h2 : check_existing_cards (env.boardResp (entryLink e)) (entryLink e) = false)
    (h3 : is_relevant (entryTitle e) (entrySummary e) = true)
    (h4 : create_planka_card cfg env.post env.now
        (summarize_article env.stripHtml (entryTitle e) (entrySummary e)).1
        (summarize_article env.stripHtml (entryTitle e) (entrySummary e)).2
        (entryLink e) sn = some body) :
    processEntry env cfg sn s e =
      (⟨entryLink e :: s.processed, s.count + 1⟩,
       [.check (entryLink e) false,
        .publish (summarize_article env.stripHtml (entryTitle e) (entrySummary e)).1
          (summarize_article env.stripHtml (entryTitle e) (entrySummary e)).2
          (entryLink e) sn (some body)]) := by
  simp [processEntry, h1, h2, h3, h4]

/-- An unseen, remotely absent, relevant entry whose publish fails leaves
both the counter and the seen-set unchanged. -/
theorem processEntry_publish_fail (env : Env) (cfg : Config) (sn : Str) (s : RunState)
    (e : FeedEntry) (h1 : entryLink e ∉ s.processed)
    (h2 : check_existing_cards (env.boardResp (entryLink e)) (entryLink e) = false)
    (h3 : is_relevant (entryTitle e) (entrySummary e) = true)
    (h4 : create_planka_card cfg env.post env.now
        (summarize_article env.stripHtml (entryTitle e) (entrySummary e)).1
        (summarize_article env.stripHtml (entryTitle e) (entrySummary e)).2
        (entryLink e) sn = none) :
    processEntry env cfg sn s e =
      (s, [.check (entryLink e) false,
           .publish (summarize_article env.stripHtml (entryTitle e) (entrySummary e)).1
             (summarize_article env.stripHtml (entryTitle e) (entrySummary e)).2
             (entryLink e) sn none]) := by
  simp [processEntry, h1, h2, h3, h4]

/-- `successLinks` distributes over trace concatenation. -/
theorem successLinks_append (a b : List Event) :
    successLinks (a ++ b) = successLinks a ++ successLinks b :=
  List.filterMap_append ..

/-- The run invariant composes along sequenced steps. -/
theorem StepOK.comp {s s' s'' : RunState} {ev ev' : List Event}
    (h1 : StepOK s (s', ev)) (h2 : StepOK s' (s'', ev')) :
    StepOK s (s'', ev ++ ev') := by
  obtain ⟨m1, n1, f1, c1⟩ := h1
  obtain ⟨m2, n2, f2, c2⟩ := h2
  refine ⟨m1.trans m2, ?_, ?_, ?_⟩
  · rw [successLinks_append, List.nodup_append]
    exact ⟨n1, n2, fun l hl1 hl2 => (f2 l hl2).1 ((f1 l hl1).2)⟩
  · intro l hl
    rw [successLinks_append] at hl
    rcases List.mem_append.mp hl with h | h
    · exact ⟨(f1 l h).1, m2 (f1 l h).2⟩
    · exact ⟨fun hs => (f2 l h).1 (m1 hs), (f2 l h).2⟩
  · rw [successLinks_append, List.length_append, c2, c1, Nat.add_assoc]

/-- Each per-entry step satisfies the run invariant. -/
theorem processEntry_StepOK (env : Env) (cfg : Config) (sn : Str) (s : RunState)
    (e : FeedEntry) : StepOK s (processEntry env cfg sn s e) := by
  by_cases h1 : entryLink e ∈ s.processed
  · rw [processEntry_seen env cfg sn s e h1]
    simp [StepOK, successLinks]
  · cases h2 : check_existing_cards (env.boardResp (entryLink e)) (entryLink e) with
    | true =>
      rw [processEntry_remote_found env cfg sn s e h1 h2]
      refine ⟨fun x hx => List.mem_cons_of_mem _ hx, ?_, ?_, ?_⟩ <;> simp [successLinks]
    | false =>
      cases h3 : is_relevant (entryTitle e) (entrySummary e) with
      | false =>
        rw [processEntry_irrelevant env cfg sn s e h1 h2 h3]
        refine ⟨fun x hx => hx, ?_, ?_, ?_⟩ <;> simp [successLinks]
      | true =>
        cases h4 : create_planka_card cfg env.post env.now
            (summarize_article env.stripHtml (entryTitle e) (entrySummary e)).1
            (summarize_article env.stripHtml (entryTitle e) (entrySummary e)).2
            (entryLink e) sn with
        | none =>
          rw [processEntry_publish_fail env cfg sn s e h1 h2 h3 h4]
          refine ⟨fun x hx => hx, ?_, ?_, ?_⟩ <;> simp [successLinks]
        | some body =>
          rw [processEntry_publish_ok env cfg sn s e body h1 h2 h3 h4]
          refine ⟨fun x hx => List.mem_cons_of_mem _ hx, ?_, ?_, ?_⟩ <;>
            simp [successLinks, h1]

/-- The per-entry loop satisfies the run invariant. -/
theorem processEntries_StepOK (env : Env) (cfg : Config) (sn : Str) :
    ∀ (es : List FeedEntry) (s : RunState), StepOK s (processEntries env cfg sn s es) := by
  intro es
  induction es with
  | nil =>
    intro s
    exact ⟨fun x hx => hx, by simp [processEntries, successLinks],
      by simp [processEntries, successLinks], by simp [processEntries, successLinks]⟩
  | cons e es ih =>
    intro s
    exact (processEntry_StepOK env cfg sn s e).comp (ih (processEntry env cfg sn s e).1)

/-- Each source iteration satisfies the run invariant. -/
theorem processSource_StepOK (env : Env) (cfg : Config) (s : RunState) (src : Str × Str) :
    StepOK s (processSource env cfg s src) :=
  processEntries_StepOK env cfg src.1 _ s

/-- The source loop satisfies the run invariant. -/
theorem runFeeds_StepOK (env : Env) (cfg : Config) :
    ∀ (fs : List (Str × Str)) (s : RunState), StepOK s (runFeeds env cfg s fs) := by
  intro fs
  induction fs with
  | nil =>
    intro s
    exact ⟨fun x hx => hx, by simp [runFeeds, successLinks],
      by simp [runFeeds, successLinks], by simp [runFeeds, successLinks]⟩
  | cons f fs ih =>
    intro s
    exact (processSource_StepOK env cfg s f).comp (ih (processSource env cfg s f).1)

/-- The whole run satisfies the run invariant, starting from the empty
seen-set and a zero counter. -/
theorem runTrace_StepOK (env : Env) (cfg : Config) : StepOK ⟨[], 0⟩ (runTrace env cfg) :=
  runFeeds_StepOK env cfg FEEDS ⟨[], 0⟩

/-- The per-entry loop never consults the fetch collaborator. -/
theorem processEntries_fetch_ignored (f₁ f₂ : Str → Str → List FeedEntry)
    (b : Str → Option (Nat × List RemoteCard)) (p : CardData → Option (Nat × PlankaCard))
    (sh : Str → Str) (now : Str) (cfg : Config) (sn : Str) :
    ∀ (es : List FeedEntry) (s : RunState),
      processEntries ⟨f₁, b, p, sh, now⟩ cfg sn s es
        = processEntries ⟨f₂, b, p, sh, now⟩ cfg sn s es := by
  intro es
  induction es with
  | nil => intro s; rfl
  | cons e es ih =>
    intro s
    have hpe : processEntry ⟨f₁, b, p, sh, now⟩ cfg sn s e
        = processEntry ⟨f₂, b, p, sh, now⟩ cfg sn s e := rfl
    simp only [processEntries, hpe, ih]

/-- A list without duplicates contains every value at most once. -/
theorem count_le_one_of_nodup : ∀ l : List Str, l.Nodup → ∀ a : Str, l.count a ≤ 1 := by
  intro l h a
  induction l with
  | nil => simp
  | cons x xs ih =>
    rw [List.count_cons]
    rcases List.nodup_cons.mp h with ⟨hx, hxs⟩
    by_cases hxa : x = a
    · subst hxa
      have h0 : xs.count x = 0 := List.count_eq_zero.mpr hx
      simp [h0]
    · simp only [beq_iff_eq, hxa, if_false, Nat.add_zero]
      exact ih hxs

/-- C1: a given link is posted as a card at most once per run: the links
of the successful card-creation POSTs of a full run are pairwise distinct
(each occurs at most once in the trace); an entry whose link is already in
the in-run seen-set is short-circuited without any external call; and in
the concrete two-source scenario where the same relevant link `"L"`
appears in the first 5 entries of two different configured sources,
exactly one card is published for it. -/
theorem run_posts_each_link_at_most_once :
    (∀ (env : Env) (cfg : Config) (link : Str),
        (successLinks (runTrace env cfg).2).count link ≤ 1) ∧
    (∀ (env : Env) (cfg : Config) (sn : Str) (s : RunState) (e : FeedEntry),
        entryLink e ∈ s.processed → processEntry env cfg sn s e = (s, [])) ∧
    successLinks (runTrace envTwoSources cfgOK).2 = [("L").data] := by
  refine ⟨?_, ?_, ?_⟩
  · intro env cfg link
    exact count_le_one_of_nodup _ (runTrace_StepOK env cfg).2.1 link
  · intro env cfg sn s e h
    exact processEntry_seen env cfg sn s e h
  · decide

/-- Witness for C1: the seen-set short-circuit at a concrete state. -/
theorem run_posts_each_link_at_most_once_witness :
    processEntry envEmpty cfgOK [] ⟨[("L").data], 0⟩ entryL = (⟨[("L").data], 0⟩, []) :=
  run_posts_each_link_at_most_once.2.1 envEmpty cfgOK [] ⟨[("L").data], 0⟩ entryL
    (List.mem_singleton.mpr rfl)

/-- C2: the per-entry processing of `run` (the sources are walked in the
fixed `FEEDS` order by definition of `runTrace`): a seen link is skipped;
an unseen link the board reports present is recorded and skipped with no
publish call; an irrelevant entry changes nothing; a relevant entry is
summarized and published, the counter and the seen-set being updated
exactly when the publish succeeds; and `run` returns the total number of
successful publishes of the run. -/
theorem run_per_entry_processing (env : Env) (cfg : Config) (sn : Str) (s : RunState)
    (e : FeedEntry) :
    (entryLink e ∈ s.processed → processEntry env cfg sn s e = (s, [])) ∧
    (entryLink e ∉ s.processed →
        check_existing_cards (env.boardResp (entryLink e)) (entryLink e) = true →
        processEntry env cfg sn s e
          = (⟨entryLink e :: s.processed, s.count⟩, [.check (entryLink e) true])) ∧
    (entryLink e ∉ s.processed →
        check_existing_cards (env.boardResp (entryLink e)) (entryLink e) = false →
        is_relevant (entryTitle e) (entrySummary e) = false →
        processEntry env cfg sn s e = (s, [.check (entryLink e) false])) ∧
    (∀ body : PlankaCard, entryLink e ∉ s.processed →
        check_existing_cards (env.boardResp (entryLink e)) (entryLink e) = false →
        is_relevant (entryTitle e) (entrySummary e) = true →
        create_planka_card cfg env.post env.now
            (summarize_article env.stripHtml (entryTitle e) (entrySummary e)).1
            (summarize_article env.stripHtml (entryTitle e) (entrySummary e)).2
            (entryLink e) sn = some body →
        processEntry env cfg sn s e
          = (⟨entryLink e :: s.processed, s.count + 1⟩,
             [.check (entryLink e) false,
              .publish (summarize_article env.stripHtml (entryTitle e) (entrySummary e)).1
                (summarize_article env.stripHtml (entryTitle e) (entrySummary e)).2
                (entryLink e) sn (some body)])) ∧
    (entryLink e ∉ s.processed →
        check_existing_cards (env.boardResp (entryLink e)) (entryLink e) = false →
        is_relevant (entryTitle e) (entrySummary e) = true →
        create_planka_card cfg env.post env.now
            (summarize_article env.stripHtml (entryTitle e) (entrySummary e)).1
            (summarize_article env.stripHtml (entryTitle e) (entrySummary e)).2
            (entryLink e) sn = none →
        processEntry env cfg sn s e
          = (s, [.check (entryLink e) false,
                 .publish (summarize_article env.stripHtml (entryTitle e) (entrySummary e)).1
                   (summarize_article env.stripHtml (entryTitle e) (entrySummary e)).2
                   (entryLink e) sn none])) ∧
    run env cfg = (successLinks (runTrace env cfg).2).length := by
  refine ⟨processEntry_seen env cfg sn s e,
    processEntry_remote_found env cfg sn s e,
    processEntry_irrelevant env cfg sn s e,
    fun body => processEntry_publish_ok env cfg sn s e body,
    processEntry_publish_fail env cfg sn s e, ?_⟩
  have h := (runTrace_StepOK env cfg).2.2.2
  simpa [run] using h

/-- Witness for C2: the remote-existence short-circuit at a concrete
input — the board reports the link present, so the link is recorded and
no publish call appears in the trace. -/
theorem run_per_entry_processing_witness :
    processEntry envBoardL cfgOK [] ⟨[], 0⟩ entryL
      = (⟨[("L").data], 0⟩, [.check ("L").data true]) :=
  (run_per_entry_processing envBoardL cfgOK [] ⟨[], 0⟩ entryL).2.1
    (by simp) (by decide)

/-- C5: the run only ever considers the first 5 entries of each source's
feed, in the feed's returned order: two environments whose fetch results
agree on the first 5 entries of every source (and agree elsewhere) produce
bit-for-bit the same run — same final state, same count, and the same
trace of existence checks and publish calls, so later entries are never
checked, never evaluated, and never published. -/
theorem run_considers_only_first_five (cfg : Config)
    (f₁ f₂ : Str → Str → List FeedEntry)
    (b : Str → Option (Nat × List RemoteCard)) (p : CardData → Option (Nat × PlankaCard))
    (sh : Str → Str) (now : Str)
    (h : ∀ n u, (f₁ n u).take 5 = (f₂ n u).take 5) :
    runTrace ⟨f₁, b, p, sh, now⟩ cfg = runTrace ⟨f₂, b, p, sh, now⟩ cfg := by
  have key : ∀ (fs : List (Str × Str)) (s : RunState),
      runFeeds ⟨f₁, b, p, sh, now⟩ cfg s fs = runFeeds ⟨f₂, b, p, sh, now⟩ cfg s fs := by
    intro fs
    induction fs with
    | nil => intro s; rfl
    | cons f fs ih =>
      intro s
      have hsrc : processSource ⟨f₁, b, p, sh, now⟩ cfg s f
          = processSource ⟨f₂, b, p, sh, now⟩ cfg s f := by
        show processEntries ⟨f₁, b, p, sh, now⟩ cfg f.1 s ((f₁ f.1 f.2).take 5)
            = processEntries ⟨f₂, b, p, sh, now⟩ cfg f.1 s ((f₂ f.1 f.2).take 5)
        rw [h f.1 f.2]
        exact processEntries_fetch_ignored f₁ f₂ b p sh now cfg f.1 ((f₂ f.1 f.2).take 5) s
      simp only [runFeeds, hsrc, ih]
  exact key FEEDS ⟨[], 0⟩

/-- Witness for C5: a feed with a sixth entry runs exactly like the same
feed truncated to its first five entries. -/
theorem run_considers_only_first_five_witness :
    runTrace ⟨fun _ _ => sixEntries, fun _ => none, fun _ => none, id, []⟩ cfgOK
      = runTrace ⟨fun _ _ => fiveEntries, fun _ => none, fun _ => none, id, []⟩ cfgOK :=
  run_considers_only_first_five cfgOK (fun _ _ => sixEntries) (fun _ _ => fiveEntries)
    (fun _ => none) (fun _ => none) id [] (fun _ _ => rfl)

/-- C9: for an entry whose link field is absent or empty (extracted link
`""`), a board GET that succeeds with at least one card makes the
existence check return true (the empty string occurs in every
description), so the entry is recorded in the seen-set and skipped —
independently of its title and summary, hence with no relevance decision
influencing the outcome — and every later missing-link entry of the run
is short-circuited by the seen-set. -/
theorem empty_link_suppresses_entries :
    (∀ cards : List RemoteCard, cards ≠ [] →
        check_existing_cards (some (200, cards)) [] = true) ∧
    (∀ (env : Env) (cfg : Config) (sn : Str) (s : RunState) (e : FeedEntry),
        entryLink e = [] → [] ∉ s.processed →
        check_existing_cards (env.boardResp []) [] = true →
        processEntry env cfg sn s e = (⟨[] :: s.processed, s.count⟩, [.check [] true])) ∧
    (∀ (env : Env) (cfg : Config) (sn : Str) (s : RunState) (e : FeedEntry),
        entryLink e = [] → [] ∈ s.processed →
        processEntry env cfg sn s e = (s, [])) := by
  refine ⟨?_, ?_, ?_⟩
  · intro cards hne
    cases cards with
    | nil => exact absurd rfl hne
    | cons c cs => simp [check_existing_cards, strIn_nil_left]
  · intro env cfg sn s e he hmem hchk
    have h := processEntry_remote_found env cfg sn s e (he ▸ hmem) (by rw [he]; exact hchk)
    rw [he] at h
    exact h
  · intro env cfg sn s e he hmem
    exact processEntry_seen env cfg sn s e (he ▸ hmem)

/-- Witness for C9: a link-less entry is recorded and skipped when the
board has one card. -/
theorem empty_link_suppresses_entries_witness :
    processEntry envBoardOneCard cfgOK [] ⟨[], 0⟩ entryNoLink
      = (⟨[[]], 0⟩, [.check [] true]) :=
  empty_link_suppresses_entries.2.1 envBoardOneCard cfgOK [] ⟨[], 0⟩ entryNoLink rfl
    (by simp) (by decide)

/-- C10: `run` is total on entries with missing fields: a missing title or
link is read as the empty string, a missing summary falls back to the
description field and then to the empty string, and the per-entry
processing of an arbitrary entry coincides with that of the entry whose
fields are explicitly the extracted defaults. -/
theorem missing_fields_default_empty :
    (∀ e : FeedEntry, e.title = none → entryTitle e = []) ∧
    (∀ e : FeedEntry, e.link = none → entryLink e = []) ∧
    (∀ (e : FeedEntry) (d : Str), e.summary = none → e.description = some d →
        entrySummary e = d) ∧
    (∀ e : FeedEntry, e.summary = none → e.description = none → entrySummary e = []) ∧
    (∀ (env : Env) (cfg : Config) (sn : Str) (s : RunState) (e : FeedEntry),
        processEntry env cfg sn s e
          = processEntry env cfg sn s
              ⟨some (entryTitle e), some (entryLink e), some (entrySummary e), none⟩) := by
  refine ⟨?_, ?_, ?_, ?_, ?_⟩
  · intro e h; simp [entryTitle, h]
  · intro e h; simp [entryLink, h]
  · intro e d hs hd; simp [entrySummary, hs, hd]
  · intro e hs hd; simp [entrySummary, hs, hd]
  · intro env cfg sn s e
    rfl

/-- Witness for C10: a summary-less entry falls back to its description. -/
theorem missing_fields_default_empty_witness :
    entrySummary ⟨none, none, none, some ("d").data⟩ = ("d").data :=
  missing_fields_default_empty.2.2.1 ⟨none, none, none, some ("d").data⟩ ("d").data rfl rfl

end M365Scout
